import Mathlib

/-!
Shallow embedding of the `telescope` repository (a browser "new tab" dashboard):
`src/services/todoist.ts` (Todoist REST client and due-date formatter) and
`src/App.tsx` (app-shell background style).

Modelling conventions:
* Browser local storage is a total map `String → Option String` (`getItem`
  returns `null`, modelled as `none`, for an unset key).
* A JavaScript exception thrown by the code is `Except.error msg`.
* `fetch` is modelled by a function `net : FetchRequest → Response`; each
  client operation additionally returns the list of requests it issued, so
  "zero network calls" is an empty list.
* `response.json()` is the `json` field of `Response`: the environment's JSON
  decoding of the body, an `Except` because decoding an empty or malformed
  body rejects (per the WHATWG fetch specification, `json()` on an empty body
  rejects with a syntax error).
* The JavaScript runtime's local time zone is taken to be UTC, and instants
  are integer milliseconds since the Unix epoch.
-/

/-- A JSON value, as produced by `response.json()`. -/
inductive JsValue where
  | null
  | bool (b : Bool)
  | num (n : Int)
  | str (s : String)
  | arr (elems : List JsValue)
  | obj (fields : List (String × JsValue))
deriving Repr

/-- The browser's per-origin local storage: each key holds a string or is unset. -/
def Store : Type := String → Option String

/-- Modelled from the spec: the settings-store key for the Todoist API key.
The key-name constants live in `src/state/model.ts`, which is not among the
provided sources; the spec only fixes that the store holds an API key, a
filter expression and a background-image URL under fixed distinct names. -/
def localStorageKeys.todoistApiKey : String := "todoistApiKey"

/-- Modelled from the spec: the settings-store key for the task filter
expression (see `localStorageKeys.todoistApiKey`). -/
def localStorageKeys.todoistFilter : String := "todoistFilter"

/-- Modelled from the spec: the settings-store key for the background-image
URL, imported by `App.tsx` from `src/settingNames.ts`, which is not among the
provided sources. -/
def backgroundImgUrl : String := "backgroundImgUrl"

/-- `const BASE_URL = "https://api.todoist.com/rest/v2"`. -/
def BASE_URL : String := "https://api.todoist.com/rest/v2"

/-- One HTTP request as issued by `fetch`: the interpolated URL, the method,
and the `Authorization` header; `body` is the JSON payload, `none` when no
body is sent (`JSON.stringify(undefined)` is `undefined`, so a `POST` with
`content === undefined` carries no body). -/
structure FetchRequest where
  url : String
  method : String
  authorization : String
  body : Option JsValue
deriving Repr

/-- An HTTP response: status code, status text, and what `response.json()`
resolves to (`Except.error` when the body is not valid JSON, e.g. empty). -/
structure Response where
  status : Nat
  statusText : String
  json : Except String JsValue
deriving Repr

/-- `getApiKey` from `src/services/todoist.ts`: reads the API key from local
storage and throws `"No Todoist API key."` when it is falsy (`null` or the
empty string, per JavaScript truthiness of `!apiKey`). -/
def getApiKey (store : Store) : Except String String :=
  match store localStorageKeys.todoistApiKey with
  | none => Except.error "No Todoist API key."
  | some apiKey =>
      if apiKey = "" then Except.error "No Todoist API key." else Except.ok apiKey

/-- `getData` from `src/services/todoist.ts`: a GET against
`` `${BASE_URL}/${endpoint}?` ``. `getApiKey()` is evaluated while building
the header object, before `fetch` is invoked, so a missing key throws with no
request issued. Status 200 returns `response.json()`, 204 returns the literal
empty object `{}`, anything else throws `Error(response.statusText)`. -/
def getData (store : Store) (net : FetchRequest → Response) (endpoint : String) :
    Except String JsValue × List FetchRequest :=
  match getApiKey store with
  | Except.error e => (Except.error e, [])
  | Except.ok apiKey =>
      let req : FetchRequest :=
        { url := BASE_URL ++ "/" ++ endpoint ++ "?"
          method := "GET"
          authorization := "Bearer " ++ apiKey
          body := none }
      let response := net req
      if response.status = 200 then (response.json, [req])
      else if response.status = 204 then (Except.ok (JsValue.obj []), [req])
      else (Except.error response.statusText, [req])

/-- `postData` from `src/services/todoist.ts`: a POST against
`` `${BASE_URL}/${endpoint}?` `` with `JSON.stringify(content)` as body.
On status 200 **or 204** it returns `await response.json()`; any other status
throws `Error(response.statusText)`. -/
def postData (store : Store) (net : FetchRequest → Response) (endpoint : String)
    (content : Option JsValue) : Except String JsValue × List FetchRequest :=
  match getApiKey store with
  | Except.error e => (Except.error e, [])
  | Except.ok apiKey =>
      let req : FetchRequest :=
        { url := BASE_URL ++ "/" ++ endpoint ++ "?"
          method := "POST"
          authorization := "Bearer " ++ apiKey
          body := content }
      let response := net req
      if response.status = 200 ∨ response.status = 204 then (response.json, [req])
      else (Except.error response.statusText, [req])

/-- `getTasks` from `src/services/todoist.ts`: reads the stored filter, with
JavaScript `||` falling back to the default string when the stored value is
`null` **or** the empty string, then calls `getData` on
`` `tasks?filter=${filter}` ``. -/
def getTasks (store : Store) (net : FetchRequest → Response) :
    Except String JsValue × List FetchRequest :=
  let filter :=
    match store localStorageKeys.todoistFilter with
    | none => "(today | overdue) & !assigned to: others"
    | some s => if s = "" then "(today | overdue) & !assigned to: others" else s
  getData store net ("tasks?filter=" ++ filter)

/-- `getProjects` from `src/services/todoist.ts`. -/
def getProjects (store : Store) (net : FetchRequest → Response) :
    Except String JsValue × List FetchRequest :=
  getData store net "projects"

/-- `closeTask` from `src/services/todoist.ts`: `postData` on
`` `tasks/${taskId}/close` `` with no content. -/
def closeTask (store : Store) (net : FetchRequest → Response) (taskId : String) :
    Except String JsValue × List FetchRequest :=
  postData store net ("tasks/" ++ taskId ++ "/close") none

/-- JavaScript template-literal coercion of a `string | null` value:
`null` interpolates as the text `"null"`. -/
def jsInterpolate (v : Option String) : String :=
  match v with
  | none => "null"
  | some s => s

/-- The `imageStyle` computation in `App` (`src/App.tsx`):
`backgroundImg !== "" ? url(${backgroundImg}) no-repeat center center fixed : ""`
where `backgroundImg = localStorage.getItem(backgroundImgUrl)`. Note the
comparison is against the empty string only, so a `null` read (unset key)
takes the template branch and interpolates as `"null"`. -/
def App.imageStyle (store : Store) : String :=
  let backgroundImg := store backgroundImgUrl
  if backgroundImg ≠ some "" then
    "url(" ++ jsInterpolate backgroundImg ++ ") no-repeat center center fixed"
  else ""

/-- The `TodoistDue` interface from `src/services/todoist.ts`: `datetime` and
`timezone` are optional (`?`), the rest required. -/
structure TodoistDue where
  string : String
  date : String
  is_recurring : Bool
  datetime : Option String
  timezone : Option String
deriving Repr

/-- A JavaScript `Date` value: a valid instant in integer milliseconds since
the Unix epoch, or the `Invalid Date` produced by a failed date-fns `parse`.
An `Invalid Date` is still an object, hence truthy. -/
inductive JsDate where
  | invalid
  | valid (ms : Int)
deriving Repr, DecidableEq

/-- Gregorian leap-year test. -/
def isLeap (y : Int) : Bool :=
  (Int.emod y 4 = 0 && Int.emod y 100 ≠ 0) || Int.emod y 400 = 0

/-- Days in a Gregorian month. -/
def daysInMonth (y m : Int) : Int :=
  if m = 2 then (if isLeap y then 29 else 28)
  else if m = 4 ∨ m = 6 ∨ m = 9 ∨ m = 11 then 30
  else 31

/-- Days from the Unix epoch to the Gregorian date `y-m-d`
(civil-from-date, Hinnant's algorithm with floor division). -/
def daysFromCivil (y m d : Int) : Int :=
  let y' := if m ≤ 2 then y - 1 else y
  let era := Int.fdiv y' 400
  let yoe := y' - era * 400
  let mp := Int.emod (m + 9) 12
  let doy := Int.fdiv (153 * mp + 2) 5 + d - 1
  let doe := yoe * 365 + Int.fdiv yoe 4 - Int.fdiv yoe 100 + doy
  era * 146097 + doe - 719468

/-- Gregorian date `(y, m, d)` of a day count from the Unix epoch
(date-from-civil, Hinnant's algorithm with floor division). -/
def civilFromDays (z : Int) : Int × Int × Int :=
  let z' := z + 719468
  let era := Int.fdiv z' 146097
  let doe := z' - era * 146097
  let yoe := Int.fdiv (doe - Int.fdiv doe 1460 + Int.fdiv doe 36524 - Int.fdiv doe 146096) 365
  let y := yoe + era * 400
  let doy := doe - (365 * yoe + Int.fdiv yoe 4 - Int.fdiv yoe 100)
  let mp := Int.fdiv (5 * doy + 2) 153
  let d := doy - Int.fdiv (153 * mp + 2) 5 + 1
  let m := if mp < 10 then mp + 3 else mp - 9
  (if m ≤ 2 then y + 1 else y, m, d)

/-- The numeric value of a decimal digit character, `none` otherwise. -/
def digitVal (c : Char) : Option Nat :=
  if c.isDigit then some (c.toNat - 48) else none

/-- Two decimal digit characters as a number, `none` if either is not a digit. -/
def twoDigits (a b : Char) : Option Nat :=
  match digitVal a, digitVal b with
  | some x, some y => some (10 * x + y)
  | _, _ => none

/-- Four decimal digit characters as a number, `none` if any is not a digit. -/
def fourDigits (a b c d : Char) : Option Nat :=
  match twoDigits a b, twoDigits c d with
  | some x, some y => some (100 * x + y)
  | _, _ => none

/-- Model of date-fns `parse` at the fixed layout `"yyyy-MM-dd"`: on a
full-width match with in-range month and day it yields local (= UTC here)
midnight of that date, fields below the day being reset to zero; on any
mismatch it yields `Invalid Date` (date-fns `parse` never throws on a
malformed string). The reference date argument is unused because every parsed
field is given by the layout. -/
def parseDateLayout (s : String) : JsDate :=
  match s.toList with
  | [y1, y2, y3, y4, '-', m1, m2, '-', d1, d2] =>
      match fourDigits y1 y2 y3 y4, twoDigits m1 m2, twoDigits d1 d2 with
      | some y, some m, some d =>
          if 1 ≤ (m : Int) ∧ (m : Int) ≤ 12 ∧ 1 ≤ (d : Int) ∧ (d : Int) ≤ daysInMonth y m then
            JsDate.valid (daysFromCivil y m d * 86400000)
          else JsDate.invalid
      | _, _, _ => JsDate.invalid
  | _ => JsDate.invalid

/-- The signed offset seconds of an `XXX`-style timezone suffix (`Z` or
`±HH:MM`), `none` if the characters do not form one. -/
def parseOffset (cs : List Char) : Option Int :=
  match cs with
  | ['Z'] => some 0
  | [sign, o1, o2, ':', p1, p2] =>
      match twoDigits o1 o2, twoDigits p1 p2 with
      | some oh, some om =>
          if oh ≤ 23 ∧ om ≤ 59 then
            let secs : Int := (oh : Int) * 3600 + (om : Int) * 60
            if sign = '+' then some secs
            else if sign = '-' then some (-secs)
            else none
          else none
      | _, _ => none
  | _ => none

/-- Model of date-fns `parse` at the fixed layout `"yyyy-MM-dd'T'HH:mm:ssXXX"`:
a full-width date, literal `T`, time of day, and an ISO offset (`Z` or
`±HH:MM`); the instant is the civil time minus the offset. Any mismatch or
out-of-range field yields `Invalid Date` rather than an exception. -/
def parseDateTimeLayout (s : String) : JsDate :=
  match s.toList with
  | y1 :: y2 :: y3 :: y4 :: '-' :: m1 :: m2 :: '-' :: d1 :: d2 :: 'T' ::
      h1 :: h2 :: ':' :: n1 :: n2 :: ':' :: s1 :: s2 :: rest =>
      match fourDigits y1 y2 y3 y4, twoDigits m1 m2, twoDigits d1 d2,
          twoDigits h1 h2, twoDigits n1 n2, twoDigits s1 s2, parseOffset rest with
      | some y, some m, some d, some h, some mi, some ss, some off =>
          if 1 ≤ (m : Int) ∧ (m : Int) ≤ 12 ∧ 1 ≤ (d : Int) ∧ (d : Int) ≤ daysInMonth y m ∧
              h ≤ 23 ∧ mi ≤ 59 ∧ ss ≤ 59 then
            JsDate.valid ((daysFromCivil y m d * 86400 +
              (h : Int) * 3600 + (mi : Int) * 60 + (ss : Int) - off) * 1000)
          else JsDate.invalid
      | _, _, _, _, _, _, _ => JsDate.invalid
  | _ => JsDate.invalid

/-- English weekday name of a weekday index with Sunday = 0. -/
def weekdayName (i : Int) : String :=
  if i = 0 then "Sunday"
  else if i = 1 then "Monday"
  else if i = 2 then "Tuesday"
  else if i = 3 then "Wednesday"
  else if i = 4 then "Thursday"
  else if i = 5 then "Friday"
  else "Saturday"

/-- A nonnegative number rendered with at least two digits. -/
def pad2 (n : Int) : String :=
  if n < 10 then "0" ++ toString n else toString n

/-- The date-fns `en-US` token `p` ("h:mm AM/PM") for an instant's local
(= UTC here) time of day. -/
def formatTimeOfDay (ms : Int) : String :=
  let msOfDay := Int.emod ms 86400000
  let h24 := Int.fdiv msOfDay 3600000
  let minute := Int.emod (Int.fdiv msOfDay 60000) 60
  let h12 := if Int.emod h24 12 = 0 then 12 else Int.emod h24 12
  let suffix := if h24 < 12 then "AM" else "PM"
  toString h12 ++ ":" ++ pad2 minute ++ " " ++ suffix

/-- The date-fns `en-US` token `P` ("MM/dd/yyyy") for an instant's local
(= UTC here) calendar date. -/
def formatShortDate (ms : Int) : String :=
  let c := civilFromDays (Int.fdiv ms 86400000)
  pad2 c.2.1 ++ "/" ++ pad2 c.2.2 ++ "/" ++ toString c.1

/-- The weekday index (Sunday = 0) of an instant's local (= UTC here) day;
day 0 of the epoch was a Thursday. -/
def weekdayOf (ms : Int) : Int :=
  Int.emod (Int.fdiv ms 86400000 + 4) 7

/-- The body of JavaScript `s.split(sep)[0]` on character lists: the prefix
of `s` before the first occurrence of the (non-empty) separator `sep`, or all
of `s` when `sep` never occurs. -/
def jsSplitFirstAux (sep : List Char) : List Char → List Char
  | [] => []
  | c :: rest =>
      if List.isPrefixOf sep (c :: rest) then []
      else c :: jsSplitFirstAux sep rest

/-- JavaScript `s.split(sep)[0]` for a non-empty separator. -/
def jsSplitFirst (sep s : String) : String :=
  String.mk (jsSplitFirstAux sep.toList s.toList)

/-- Model of date-fns `formatRelative(date, baseDate)` with the default
`en-US` locale: switches on the difference in calendar days, producing
`"last <weekday> at <time>"` (−6…−2), `"yesterday at <time>"`,
`"today at <time>"`, `"tomorrow at <time>"`, `"<weekday> at <time>"` (2…6),
and the short date `MM/dd/yyyy` otherwise; it throws
`RangeError("Invalid time value")` when given an `Invalid Date`. -/
def formatRelative (date base : JsDate) : Except String String :=
  match date, base with
  | JsDate.valid d, JsDate.valid b =>
      let dayDiff := Int.fdiv d 86400000 - Int.fdiv b 86400000
      if dayDiff < -6 then Except.ok (formatShortDate d)
      else if dayDiff < -1 then
        Except.ok ("last " ++ weekdayName (weekdayOf d) ++ " at " ++ formatTimeOfDay d)
      else if dayDiff = -1 then Except.ok ("yesterday at " ++ formatTimeOfDay d)
      else if dayDiff = 0 then Except.ok ("today at " ++ formatTimeOfDay d)
      else if dayDiff = 1 then Except.ok ("tomorrow at " ++ formatTimeOfDay d)
      else if dayDiff < 7 then
        Except.ok (weekdayName (weekdayOf d) ++ " at " ++ formatTimeOfDay d)
      else Except.ok (formatShortDate d)
  | _, _ => Except.error "Invalid time value"

/-- `relativeDateTime` from `src/services/todoist.ts`, with the ambient
`new Date()` made an explicit instant `now`. `due.datetime ? parse(...) :
undefined` tests JavaScript truthiness of the string (absent or empty skips
the parse), and `if (dueDateTime)` tests only for `undefined` — an
`Invalid Date` from a failed parse is truthy and reaches `formatRelative`.
The date branch keeps `split(" at")[0]` (`jsSplitFirst " at"`): everything
from the first occurrence of `" at"` onward is dropped. -/
def relativeDateTime (due : TodoistDue) (now : Int) : Except String String :=
  let dueDateTime : Option JsDate :=
    match due.datetime with
    | some s => if s = "" then none else some (parseDateTimeLayout s)
    | none => none
  match dueDateTime with
  | some d => formatRelative d (JsDate.valid now)
  | none =>
      let dueDate : Option JsDate :=
        if due.date = "" then none else some (parseDateLayout due.date)
      match dueDate with
      | some d =>
          Except.map (jsSplitFirst " at") (formatRelative d (JsDate.valid now))
      | none => Except.ok ""

/-! ### Helper lemmas -/

/-- `formatRelative` never fails on two valid dates: every branch returns a string. -/
theorem formatRelative_valid_ok (d b : Int) :
    ∃ out, formatRelative (JsDate.valid d) (JsDate.valid b) = Except.ok out := by
  unfold formatRelative
  dsimp only
  repeat' split
  all_goals exact ⟨_, rfl⟩

/-- Fusing the literal pieces of the tasks URL. -/
theorem tasks_url_eq (f : String) :
    BASE_URL ++ "/" ++ ("tasks?filter=" ++ f) ++ "?" =
      "https://api.todoist.com/rest/v2/tasks?filter=" ++ f ++ "?" := by
  show BASE_URL ++ "/" ++ ("tasks?filter=" ++ f) ++ "?" =
      ((BASE_URL ++ "/") ++ "tasks?filter=") ++ f ++ "?"
  simp only [String.append_assoc]

/-- The background style built from a URL template is never the empty string. -/
theorem urlStyle_ne_empty (s : String) :
    "url(" ++ s ++ ") no-repeat center center fixed" ≠ "" := by
  intro h
  have hl := congrArg String.length h
  rw [String.length_append, String.length_append] at hl
  simp only [show ("url(" : String).length = 4 from rfl,
    show ("" : String).length = 0 from rfl] at hl
  omega

/-! ### C1 -/

/-- C1: in every state with no stored API key, `getTasks`, `getProjects` and
`closeTask` all fail with the error `"No Todoist API key."` and issue zero
network requests. -/
theorem missingApiKey_fails_without_network (store : Store)
    (net : FetchRequest → Response) (taskId : String)
    (h : store localStorageKeys.todoistApiKey = none) :
    getTasks store net = (Except.error "No Todoist API key.", []) ∧
    getProjects store net = (Except.error "No Todoist API key.", []) ∧
    closeTask store net taskId = (Except.error "No Todoist API key.", []) := by
  unfold getTasks getProjects closeTask getData postData getApiKey
  rw [h]
  simp

/-- Witness for C1 at a concrete empty store. -/
theorem missingApiKey_fails_without_network_witness :
    getTasks (fun _ => none)
        (fun _ => { status := 200, statusText := "OK", json := Except.ok JsValue.null }) =
      (Except.error "No Todoist API key.", []) ∧
    getProjects (fun _ => none)
        (fun _ => { status := 200, statusText := "OK", json := Except.ok JsValue.null }) =
      (Except.error "No Todoist API key.", []) ∧
    closeTask (fun _ => none)
        (fun _ => { status := 200, statusText := "OK", json := Except.ok JsValue.null }) "42" =
      (Except.error "No Todoist API key.", []) :=
  missingApiKey_fails_without_network _ _ "42" rfl

/-! ### C2 -/

/-- C2 counterexample: a due descriptor whose `datetime` is the non-empty
malformed string `"garbage"` (and whose `date` is empty, so both fields fail
to parse) makes `relativeDateTime` raise `RangeError("Invalid time value")`
instead of returning the empty string: the `Invalid Date` produced by the
failed parse is truthy and is handed to `formatRelative`. -/
theorem relativeDateTime_malformed_raises :
    relativeDateTime
        { string := "x", date := "", is_recurring := false,
          datetime := some "garbage", timezone := none } 0 =
      Except.error "Invalid time value" ∧
    relativeDateTime
        { string := "x", date := "", is_recurring := false,
          datetime := some "garbage", timezone := none } 0 ≠
      Except.ok "" := by
  have h1 : relativeDateTime
      { string := "x", date := "", is_recurring := false,
        datetime := some "garbage", timezone := none } 0 =
      Except.error "Invalid time value" := rfl
  exact ⟨h1, by rw [h1]; simp⟩

/-- C2 amended: when the `datetime` field is absent or empty and the `date`
field is empty (the only unparseable inputs that do not reach
`formatRelative`), `relativeDateTime` returns the empty string without
raising. -/
theorem relativeDateTime_blank_fields_empty (due : TodoistDue) (now : Int)
    (h1 : due.datetime = none ∨ due.datetime = some "") (h2 : due.date = "") :
    relativeDateTime due now = Except.ok "" := by
  unfold relativeDateTime
  rcases h1 with h1 | h1 <;> rw [h1, h2] <;> simp

/-- Witness for the amended C2 at a concrete all-blank descriptor. -/
theorem relativeDateTime_blank_fields_empty_witness :
    relativeDateTime
        { string := "", date := "", is_recurring := false,
          datetime := none, timezone := none } 0 =
      Except.ok "" :=
  relativeDateTime_blank_fields_empty _ 0 (Or.inl rfl) rfl

/-! ### C3 -/

/-- C3: on a status-204 response whose body is empty (so `response.json()`
rejects, as it does for every true 204 No Content), `getTasks` and
`getProjects` return the empty object `{}` as the spec states, but
`closeTask` — whose `postData` calls `response.json()` even on 204 —
propagates the JSON parse failure instead of returning an empty object. -/
theorem closeTask_204_empty_body_errors :
    (closeTask
        (fun k => if k = localStorageKeys.todoistApiKey then some "tkn" else none)
        (fun _ => { status := 204, statusText := "No Content",
                    json := Except.error "Unexpected end of JSON input" }) "42").fst =
      Except.error "Unexpected end of JSON input" ∧
    (getTasks
        (fun k => if k = localStorageKeys.todoistApiKey then some "tkn" else none)
        (fun _ => { status := 204, statusText := "No Content",
                    json := Except.error "Unexpected end of JSON input" })).fst =
      Except.ok (JsValue.obj []) ∧
    (getProjects
        (fun k => if k = localStorageKeys.todoistApiKey then some "tkn" else none)
        (fun _ => { status := 204, statusText := "No Content",
                    json := Except.error "Unexpected end of JSON input" })).fst =
      Except.ok (JsValue.obj []) :=
  ⟨rfl, rfl, rfl⟩

/-! ### C4 -/

/-- C4: whenever the key is stored and non-empty and the server answers with
a status that is neither 200 nor 204, each operation fails with an error whose
message is exactly the response's status text, after issuing exactly one
request (no retry). -/
theorem nonOkStatus_fails_with_statusText (store : Store) (resp : Response)
    (apiKey taskId : String)
    (hk : store localStorageKeys.todoistApiKey = some apiKey) (hk' : apiKey ≠ "")
    (h200 : resp.status ≠ 200) (h204 : resp.status ≠ 204) :
    (getTasks store (fun _ => resp)).fst = Except.error resp.statusText ∧
    (getTasks store (fun _ => resp)).snd.length = 1 ∧
    (getProjects store (fun _ => resp)).fst = Except.error resp.statusText ∧
    (getProjects store (fun _ => resp)).snd.length = 1 ∧
    (closeTask store (fun _ => resp) taskId).fst = Except.error resp.statusText ∧
    (closeTask store (fun _ => resp) taskId).snd.length = 1 := by
  unfold getTasks getProjects closeTask getData postData getApiKey
  rw [hk]
  simp [hk', h200, h204]

/-- Witness for C4: a 404 Not Found against a store holding the key `"abc"`. -/
theorem nonOkStatus_fails_with_statusText_witness :
    (getTasks (fun k => if k = localStorageKeys.todoistApiKey then some "abc" else none)
        (fun _ => { status := 404, statusText := "Not Found",
                    json := Except.error "body" })).fst = Except.error "Not Found" ∧
    (getTasks (fun k => if k = localStorageKeys.todoistApiKey then some "abc" else none)
        (fun _ => { status := 404, statusText := "Not Found",
                    json := Except.error "body" })).snd.length = 1 ∧
    (getProjects (fun k => if k = localStorageKeys.todoistApiKey then some "abc" else none)
        (fun _ => { status := 404, statusText := "Not Found",
                    json := Except.error "body" })).fst = Except.error "Not Found" ∧
    (getProjects (fun k => if k = localStorageKeys.todoistApiKey then some "abc" else none)
        (fun _ => { status := 404, statusText := "Not Found",
                    json := Except.error "body" })).snd.length = 1 ∧
    (closeTask (fun k => if k = localStorageKeys.todoistApiKey then some "abc" else none)
        (fun _ => { status := 404, statusText := "Not Found",
                    json := Except.error "body" }) "7").fst = Except.error "Not Found" ∧
    (closeTask (fun k => if k = localStorageKeys.todoistApiKey then some "abc" else none)
        (fun _ => { status := 404, statusText := "Not Found",
                    json := Except.error "body" }) "7").snd.length = 1 :=
  nonOkStatus_fails_with_statusText _ _ "abc" "7" rfl (by decide) (by decide) (by decide)

/-- With a stored non-empty API key, `getData` issues exactly the one GET
request built from the endpoint, whatever the response is. -/
theorem getData_snd (store : Store) (net : FetchRequest → Response)
    (endpoint apiKey : String)
    (hk : store localStorageKeys.todoistApiKey = some apiKey) (hk' : apiKey ≠ "") :
    (getData store net endpoint).snd =
      [{ url := BASE_URL ++ "/" ++ endpoint ++ "?", method := "GET",
         authorization := "Bearer " ++ apiKey, body := none }] := by
  unfold getData getApiKey
  rw [hk]
  simp only [hk', if_false, ite_false]
  split
  · rfl
  · split <;> rfl

/-! ### C5 -/

/-- C5 counterexample: with a stored **empty** filter string, `getTasks` does
not request `filter=` with the stored value — JavaScript `||` treats the empty
string as falsy, so the default filter is substituted. -/
theorem getTasks_storedEmptyFilter_usesDefault :
    ((getTasks
        (fun k => if k = localStorageKeys.todoistApiKey then some "tkn"
          else if k = localStorageKeys.todoistFilter then some "" else none)
        (fun _ => { status := 200, statusText := "OK",
                    json := Except.ok (JsValue.arr []) })).snd.map
      (fun r => r.url)) =
      ["https://api.todoist.com/rest/v2/tasks?filter=(today | overdue) & !assigned to: others?"] ∧
    ((getTasks
        (fun k => if k = localStorageKeys.todoistApiKey then some "tkn"
          else if k = localStorageKeys.todoistFilter then some "" else none)
        (fun _ => { status := 200, statusText := "OK",
                    json := Except.ok (JsValue.arr []) })).snd.map
      (fun r => r.url)) ≠
      ["https://api.todoist.com/rest/v2/tasks?filter=?"] := by
  have h1 : ((getTasks
      (fun k => if k = localStorageKeys.todoistApiKey then some "tkn"
        else if k = localStorageKeys.todoistFilter then some "" else none)
      (fun _ => { status := 200, statusText := "OK",
                  json := Except.ok (JsValue.arr []) })).snd.map
      (fun r => r.url)) =
      ["https://api.todoist.com/rest/v2/tasks?filter=(today | overdue) & !assigned to: others?"] := rfl
  exact ⟨h1, by rw [h1]; decide⟩

/-- C5 amended: when a non-empty API key is stored, `getTasks` issues exactly
one GET request whose filter is the stored filter string when a **non-empty**
one is stored, and the default
`"(today | overdue) & !assigned to: others"` when the filter key is unset
**or** stored as the empty string. -/
theorem getTasks_filter_selection (store : Store) (net : FetchRequest → Response)
    (apiKey : String)
    (hk : store localStorageKeys.todoistApiKey = some apiKey) (hk' : apiKey ≠ "") :
    (∀ f, store localStorageKeys.todoistFilter = some f → f ≠ "" →
      (getTasks store net).snd =
        [{ url := "https://api.todoist.com/rest/v2/tasks?filter=" ++ f ++ "?",
           method := "GET", authorization := "Bearer " ++ apiKey, body := none }]) ∧
    (store localStorageKeys.todoistFilter = none →
      (getTasks store net).snd =
        [{ url := "https://api.todoist.com/rest/v2/tasks?filter=(today | overdue) & !assigned to: others?",
           method := "GET", authorization := "Bearer " ++ apiKey, body := none }]) ∧
    (store localStorageKeys.todoistFilter = some "" →
      (getTasks store net).snd =
        [{ url := "https://api.todoist.com/rest/v2/tasks?filter=(today | overdue) & !assigned to: others?",
           method := "GET", authorization := "Bearer " ++ apiKey, body := none }]) := by
  refine ⟨fun f hf hf' => ?_, fun hf => ?_, fun hf => ?_⟩
  · unfold getTasks
    rw [hf]
    simp only [if_neg hf']
    rw [getData_snd store net _ apiKey hk hk', tasks_url_eq]
  · unfold getTasks
    rw [hf]
    rw [getData_snd store net _ apiKey hk hk']
    rfl
  · unfold getTasks
    rw [hf]
    simp only [if_pos rfl]
    rw [getData_snd store net _ apiKey hk hk']
    rfl

/-- Witness for the amended C5 at a store holding filter `"p1"`. -/
theorem getTasks_filter_selection_witness :
    (getTasks
        (fun k => if k = localStorageKeys.todoistApiKey then some "tkn"
          else if k = localStorageKeys.todoistFilter then some "p1" else none)
        (fun _ => { status := 200, statusText := "OK",
                    json := Except.ok (JsValue.arr []) })).snd =
      [{ url := "https://api.todoist.com/rest/v2/tasks?filter=" ++ "p1" ++ "?",
         method := "GET", authorization := "Bearer " ++ "tkn", body := none }] :=
  (getTasks_filter_selection _ _ "tkn" rfl (by decide)).1 "p1" rfl (by decide)

/-! ### C6 -/

/-- C6: whenever the `datetime` field is present and parses under the layout
`yyyy-MM-dd'T'HH:mm:ssXXX`, `relativeDateTime` returns exactly
`formatRelative` of that instant against `now` — the `date` field is never
consulted — and the call succeeds with some output string. -/
theorem relativeDateTime_datetime_precedence (due : TodoistDue) (now : Int)
    (s : String) (t : Int)
    (hs : due.datetime = some s) (hp : parseDateTimeLayout s = JsDate.valid t) :
    relativeDateTime due now = formatRelative (JsDate.valid t) (JsDate.valid now) ∧
    ∃ out, relativeDateTime due now = Except.ok out := by
  have hne : s ≠ "" := by
    intro h
    rw [h, show parseDateTimeLayout "" = JsDate.invalid from rfl] at hp
    exact JsDate.noConfusion hp
  have heq : relativeDateTime due now =
      formatRelative (JsDate.valid t) (JsDate.valid now) := by
    unfold relativeDateTime
    rw [hs]
    simp [hne, hp]
  obtain ⟨out, ho⟩ := formatRelative_valid_ok t now
  exact ⟨heq, out, heq.trans ho⟩

/-- Witness for C6: the spec scenario with
`datetime = "2024-03-10T14:30:00+00:00"` and now = 2024-03-10T09:00:00Z;
the output carries a time-of-day component. -/
theorem relativeDateTime_datetime_precedence_witness :
    relativeDateTime
        { string := "Mar 10 2:30pm", date := "2024-03-10", is_recurring := false,
          datetime := some "2024-03-10T14:30:00+00:00", timezone := none }
        1710061200000 =
      formatRelative (JsDate.valid 1710081000000) (JsDate.valid 1710061200000) ∧
    relativeDateTime
        { string := "Mar 10 2:30pm", date := "2024-03-10", is_recurring := false,
          datetime := some "2024-03-10T14:30:00+00:00", timezone := none }
        1710061200000 =
      Except.ok "today at 2:30 PM" :=
  ⟨(relativeDateTime_datetime_precedence
      { string := "Mar 10 2:30pm", date := "2024-03-10", is_recurring := false,
        datetime := some "2024-03-10T14:30:00+00:00", timezone := none }
      1710061200000 "2024-03-10T14:30:00+00:00" 1710081000000 rfl rfl).1, rfl⟩

/-! ### C7 -/

/-- C7 counterexample: a descriptor with the unparseable non-empty
`datetime = "garbage"` and the perfectly parseable `date = "2024-03-10"`
(three conjuncts: the date does parse, yet the result is the
`formatRelative` exception, not the stripped relative phrase `"today"`). -/
theorem relativeDateTime_invalid_datetime_blocks_date :
    parseDateLayout "2024-03-10" = JsDate.valid 1710028800000 ∧
    relativeDateTime
        { string := "Mar 10", date := "2024-03-10", is_recurring := false,
          datetime := some "garbage", timezone := none } 1710061200000 =
      Except.error "Invalid time value" ∧
    relativeDateTime
        { string := "Mar 10", date := "2024-03-10", is_recurring := false,
          datetime := some "garbage", timezone := none } 1710061200000 ≠
      Except.ok "today" := by
  refine ⟨rfl, rfl, ?_⟩
  intro hc
  rw [show relativeDateTime
      { string := "Mar 10", date := "2024-03-10", is_recurring := false,
        datetime := some "garbage", timezone := none } 1710061200000 =
      Except.error "Invalid time value" from rfl] at hc
  exact Except.noConfusion hc

/-- C7 amended: when the `datetime` field is absent or empty and the `date`
field parses under `yyyy-MM-dd`, `relativeDateTime` returns the relative
formatting of that date with everything from the first occurrence of `" at"`
onward removed, and succeeds. -/
theorem relativeDateTime_date_branch (due : TodoistDue) (now : Int) (t : Int)
    (h1 : due.datetime = none ∨ due.datetime = some "")
    (hp : parseDateLayout due.date = JsDate.valid t) :
    relativeDateTime due now =
      Except.map (jsSplitFirst " at")
        (formatRelative (JsDate.valid t) (JsDate.valid now)) ∧
    ∃ out, relativeDateTime due now = Except.ok out := by
  have hne : due.date ≠ "" := by
    intro h
    rw [h, show parseDateLayout "" = JsDate.invalid from rfl] at hp
    exact JsDate.noConfusion hp
  have heq : relativeDateTime due now =
      Except.map (jsSplitFirst " at")
        (formatRelative (JsDate.valid t) (JsDate.valid now)) := by
    unfold relativeDateTime
    rcases h1 with h1 | h1 <;> rw [h1] <;> simp [hne, hp]
  obtain ⟨out, ho⟩ := formatRelative_valid_ok t now
  refine ⟨heq, jsSplitFirst " at" out, ?_⟩
  rw [heq, ho]
  rfl

/-- Witness for the amended C7: the spec scenario `date = "2024-03-10"` at
now = 2024-03-10T09:00:00Z yields `"today"`, with no time suffix. -/
theorem relativeDateTime_date_branch_witness :
    relativeDateTime
        { string := "Mar 10", date := "2024-03-10", is_recurring := false,
          datetime := none, timezone := none } 1710061200000 =
      Except.map (jsSplitFirst " at")
        (formatRelative (JsDate.valid 1710028800000) (JsDate.valid 1710061200000)) ∧
    relativeDateTime
        { string := "Mar 10", date := "2024-03-10", is_recurring := false,
          datetime := none, timezone := none } 1710061200000 =
      Except.ok "today" :=
  ⟨(relativeDateTime_date_branch
      { string := "Mar 10", date := "2024-03-10", is_recurring := false,
        datetime := none, timezone := none }
      1710061200000 1710028800000 (Or.inl rfl) rfl).1, rfl⟩

/-! ### C8 -/

/-- C8: `relativeDateTime` is a pure function of the due descriptor and the
current moment — two calls with equal descriptors and equal instants give
equal strings (in the embedding the code's ambient `new Date()` reads are the
explicit `now` argument). -/
theorem relativeDateTime_deterministic (due₁ due₂ : TodoistDue) (now₁ now₂ : Int)
    (hdue : due₁ = due₂) (hnow : now₁ = now₂) :
    relativeDateTime due₁ now₁ = relativeDateTime due₂ now₂ := by
  rw [hdue, hnow]

/-- Witness for C8 at a concrete descriptor and instant. -/
theorem relativeDateTime_deterministic_witness :
    relativeDateTime
        { string := "Jan 2", date := "2024-01-02", is_recurring := true,
          datetime := none, timezone := some "UTC" } 1704153600000 =
      relativeDateTime
        { string := "Jan 2", date := "2024-01-02", is_recurring := true,
          datetime := none, timezone := some "UTC" } 1704153600000 :=
  relativeDateTime_deterministic _ _ _ _ rfl rfl

/-! ### C9 -/

/-- C9: with a non-empty API key stored, the URL `getTasks` fetches is the
verbatim concatenation `"https://api.todoist.com/rest/v2/tasks?filter=" ++ F
++ "?"` — the trailing `"?"` comes from the `` `${BASE_URL}/${endpoint}?` ``
template — with no percent-encoding of any character of `F`, for a stored
non-empty filter `F` as well as for the default filter (whose `&` and `|`
therefore appear raw in the query string). -/
theorem getTasks_url_verbatim (store : Store) (net : FetchRequest → Response)
    (apiKey : String)
    (hk : store localStorageKeys.todoistApiKey = some apiKey) (hk' : apiKey ≠ "") :
    (∀ f, store localStorageKeys.todoistFilter = some f → f ≠ "" →
      ((getTasks store net).snd.map (fun r => r.url)) =
        ["https://api.todoist.com/rest/v2/tasks?filter=" ++ f ++ "?"] ∧
      ((getTasks store net).snd.map (fun r => r.method)) = ["GET"]) ∧
    (store localStorageKeys.todoistFilter = none →
      ((getTasks store net).snd.map (fun r => r.url)) =
        ["https://api.todoist.com/rest/v2/tasks?filter=(today | overdue) & !assigned to: others?"]) := by
  constructor
  · intro f hf hf'
    unfold getTasks
    rw [hf]
    simp only [if_neg hf']
    rw [getData_snd store net _ apiKey hk hk']
    constructor
    · simp only [List.map]
      rw [tasks_url_eq]
    · rfl
  · intro hf
    unfold getTasks
    rw [hf]
    rw [getData_snd store net _ apiKey hk hk']
    rfl

/-- Witness for C9: a stored filter containing `&`, `|` and spaces appears
byte-for-byte in the fetched URL. -/
theorem getTasks_url_verbatim_witness :
    ((getTasks
        (fun k => if k = localStorageKeys.todoistApiKey then some "tkn"
          else if k = localStorageKeys.todoistFilter then some "p1 & p2 | p3" else none)
        (fun _ => { status := 200, statusText := "OK",
                    json := Except.ok (JsValue.arr []) })).snd.map (fun r => r.url)) =
      ["https://api.todoist.com/rest/v2/tasks?filter=" ++ "p1 & p2 | p3" ++ "?"] ∧
    ((getTasks
        (fun k => if k = localStorageKeys.todoistApiKey then some "tkn"
          else if k = localStorageKeys.todoistFilter then some "p1 & p2 | p3" else none)
        (fun _ => { status := 200, statusText := "OK",
                    json := Except.ok (JsValue.arr []) })).snd.map (fun r => r.method)) =
      ["GET"] :=
  (getTasks_url_verbatim _ _ "tkn" rfl (by decide)).1 "p1 & p2 | p3" rfl (by decide)

/-! ### C10 -/

/-- C10: when no background-image URL is stored (the read yields `null`, not
a string), the computed background style is the literal
`"url(null) no-repeat center center fixed"`, and the style is the empty
string exactly when the stored value is the empty string. -/
theorem imageStyle_null_interpolation (store : Store) :
    (store backgroundImgUrl = none →
      App.imageStyle store = "url(null) no-repeat center center fixed") ∧
    (App.imageStyle store = "" ↔ store backgroundImgUrl = some "") := by
  unfold App.imageStyle jsInterpolate
  rcases h : store backgroundImgUrl with _ | s
  · refine ⟨fun _ => by simp, ?_⟩
    simp only [ne_eq, reduceCtorEq, not_false_eq_true, if_true]
    constructor
    · intro hc
      exact absurd hc (urlStyle_ne_empty "null")
    · intro hc
      exact hc.elim
  · refine ⟨fun hc => Option.noConfusion hc, ?_⟩
    by_cases hs : s = ""
    · subst hs
      simp
    · simp only [ne_eq, Option.some.injEq, hs, not_false_eq_true, if_true]
      constructor
      · intro hc
        exact absurd hc (urlStyle_ne_empty s)
      · intro hc
        exact hc.elim

/-- Witness for C10 at the empty store. -/
theorem imageStyle_null_interpolation_witness :
    App.imageStyle (fun _ => none) = "url(null) no-repeat center center fixed" :=
  (imageStyle_null_interpolation (fun _ => none)).1 rfl
